import Mathlib

/-! Shallow embedding of the StackIt voting, acceptance and notification
workflow: the Mongoose Question / Answer / Notification schema methods and
the Express controllers that invoke them, with theorems checking the
specified properties against the embedded code. -/

namespace StackIt

abbrev UserId := Nat

/-- One element of a `votes.upvotes` or `votes.downvotes` array: a
subdocument holding the voting user and a creation timestamp
(`{ user, createdAt }` in the schemas). -/
structure VoteEntry where
  user : UserId
  createdAt : Nat
deriving Repr, DecidableEq

/-- The `votes` subdocument shared by the Question and Answer schemas:
two arrays of vote entries. -/
structure Votes where
  upvotes : List VoteEntry
  downvotes : List VoteEntry
deriving Repr, DecidableEq

/-- The `voteCount` virtual of both schemas:
`this.votes.upvotes.length - this.votes.downvotes.length`. -/
def voteCount (v : Votes) : Int :=
  (v.upvotes.length : Int) - (v.downvotes.length : Int)

/-- `hasUserVoted(userId, voteType)` from both schemas: membership test of
`userId` in the array selected by `voteType`; any other string yields
`false`. -/
def hasUserVoted (v : Votes) (userId : UserId) (voteType : String) : Bool :=
  if voteType == "upvote" then
    v.upvotes.any (fun vote => vote.user == userId)
  else if voteType == "downvote" then
    v.downvotes.any (fun vote => vote.user == userId)
  else
    false

/-- `addVote(userId, voteType)` from both schemas: filter the user out of
the opposite array, then push onto the target array unless already
present.  `now` stands for the ambient `Date.now` used by the
`createdAt` default. -/
def addVote (v : Votes) (userId : UserId) (voteType : String) (now : Nat) : Votes :=
  if voteType == "upvote" then
    let v1 : Votes := { v with downvotes := v.downvotes.filter (fun vote => vote.user != userId) }
    if !(hasUserVoted v1 userId "upvote") then
      { v1 with upvotes := v1.upvotes ++ [{ user := userId, createdAt := now }] }
    else
      v1
  else if voteType == "downvote" then
    let v1 : Votes := { v with upvotes := v.upvotes.filter (fun vote => vote.user != userId) }
    if !(hasUserVoted v1 userId "downvote") then
      { v1 with downvotes := v1.downvotes ++ [{ user := userId, createdAt := now }] }
    else
      v1
  else
    v

/-- `removeVote(userId, voteType)` from both schemas: filter the user out
of the target array; any other string leaves the votes untouched. -/
def removeVote (v : Votes) (userId : UserId) (voteType : String) : Votes :=
  if voteType == "upvote" then
    { v with upvotes := v.upvotes.filter (fun vote => vote.user != userId) }
  else if voteType == "downvote" then
    { v with downvotes := v.downvotes.filter (fun vote => vote.user != userId) }
  else
    v

/-- One call against a vote ledger: the schema methods `addVote` (with its
ambient timestamp) or `removeVote`, by any user with any voteType string. -/
inductive VoteOp where
  | add (userId : UserId) (voteType : String) (now : Nat)
  | remove (userId : UserId) (voteType : String)
deriving Repr, DecidableEq

def applyVoteOp (v : Votes) : VoteOp → Votes
  | VoteOp.add u t now => addVote v u t now
  | VoteOp.remove u t => removeVote v u t

def applyVoteOps (v : Votes) (ops : List VoteOp) : Votes :=
  ops.foldl applyVoteOp v

/-- A user is in at most one of the two vote arrays. -/
def mutexFor (v : Votes) (u : UserId) : Prop :=
  ¬(hasUserVoted v u "upvote" = true ∧ hasUserVoted v u "downvote" = true)

/-- A `questions` collection document (Question schema). -/
structure Question where
  id : Nat
  title : String
  description : String
  author : UserId
  tags : List String
  votes : Votes
  views : Nat
  isAccepted : Bool
  status : String
  lastActivity : Nat
deriving Repr, DecidableEq

/-- An `editHistory` entry of the Answer schema. -/
structure EditEntry where
  content : String
  editedAt : Nat
  editedBy : UserId
deriving Repr, DecidableEq

/-- A `comments` entry of the Answer schema. -/
structure Comment where
  content : String
  author : UserId
  createdAt : Nat
deriving Repr, DecidableEq

/-- An `answers` collection document (Answer schema). -/
structure Answer where
  id : Nat
  content : String
  question : Nat
  author : UserId
  votes : Votes
  isAccepted : Bool
  isEdited : Bool
  editHistory : List EditEntry
  comments : List Comment
deriving Repr, DecidableEq

/-- The `metadata` subdocument of the Notification schema. -/
structure NotificationMetadata where
  voteType : Option String
  questionTitle : Option String
  answerPreview : Option String
deriving Repr, DecidableEq

/-- A `notifications` collection document (Notification schema). -/
structure NotificationDoc where
  id : Nat
  recipient : UserId
  sender : UserId
  type : String
  question : Option Nat
  answer : Option Nat
  content : String
  read : Bool
  metadata : NotificationMetadata
deriving Repr, DecidableEq

/-- The document store holding the three collections the controllers
touch. -/
structure Store where
  questions : List Question
  answers : List Answer
  notifications : List NotificationDoc
deriving Repr, DecidableEq

/-- `Question.findById`. -/
def findQuestion (s : Store) (id : Nat) : Option Question :=
  s.questions.find? (fun q => q.id == id)

/-- `Answer.findById`. -/
def findAnswer (s : Store) (id : Nat) : Option Answer :=
  s.answers.find? (fun a => a.id == id)

/-- `document.save()` on a question: write the in-memory document back
over the stored document with the same id. -/
def saveQuestion (s : Store) (q : Question) : Store :=
  { s with questions := s.questions.map (fun x => if x.id == q.id then q else x) }

/-- `document.save()` on an answer. -/
def saveAnswer (s : Store) (a : Answer) : Store :=
  { s with answers := s.answers.map (fun x => if x.id == a.id then a else x) }

/-- Status and error body of a controller response. -/
structure ApiResult where
  status : Nat
  error : Option String
deriving Repr, DecidableEq

/-- JavaScript `x || dflt` over an optional request field, where the empty
string is falsy. -/
def jsOr (v : Option String) (dflt : String) : String :=
  match v with
  | some t => if t == "" then dflt else t
  | none => dflt

/-- The `voteQuestion` controller (`POST /api/questions/:id/vote`). -/
def voteQuestion (s : Store) (questionId : Nat) (userId : UserId)
    (voteType : String) (now : Nat) : ApiResult × Store :=
  if !(voteType == "upvote" || voteType == "downvote") then
    ({ status := 400, error := some "Invalid vote type" }, s)
  else
    match findQuestion s questionId with
    | none => ({ status := 404, error := some "Question not found" }, s)
    | some question =>
      if question.author == userId then
        ({ status := 400, error := some "Cannot vote on your own question" }, s)
      else
        ({ status := 200, error := none },
          saveQuestion s { question with votes := addVote question.votes userId voteType now })

/-- The question-side `removeVote` controller
(`DELETE /api/questions/:id/vote`). -/
def removeVoteQuestion (s : Store) (questionId : Nat) (userId : UserId)
    (voteType : String) : ApiResult × Store :=
  if !(voteType == "upvote" || voteType == "downvote") then
    ({ status := 400, error := some "Invalid vote type" }, s)
  else
    match findQuestion s questionId with
    | none => ({ status := 404, error := some "Question not found" }, s)
    | some question =>
      ({ status := 200, error := none },
        saveQuestion s { question with votes := removeVote question.votes userId voteType })

/-- The `voteAnswer` controller (`POST /api/answers/:id/vote`). -/
def voteAnswer (s : Store) (answerId : Nat) (userId : UserId)
    (voteType : String) (now : Nat) : ApiResult × Store :=
  if !(voteType == "upvote" || voteType == "downvote") then
    ({ status := 400, error := some "Invalid vote type" }, s)
  else
    match findAnswer s answerId with
    | none => ({ status := 404, error := some "Answer not found" }, s)
    | some answer =>
      if answer.author == userId then
        ({ status := 400, error := some "Cannot vote on your own answer" }, s)
      else
        ({ status := 200, error := none },
          saveAnswer s { answer with votes := addVote answer.votes userId voteType now })

/-- The answer-side `removeVote` controller
(`DELETE /api/answers/:id/vote`). -/
def removeVoteAnswer (s : Store) (answerId : Nat) (userId : UserId)
    (voteType : String) : ApiResult × Store :=
  if !(voteType == "upvote" || voteType == "downvote") then
    ({ status := 400, error := some "Invalid vote type" }, s)
  else
    match findAnswer s answerId with
    | none => ({ status := 404, error := some "Answer not found" }, s)
    | some answer =>
      ({ status := 200, error := none },
        saveAnswer s { answer with votes := removeVote answer.votes userId voteType })

/-- The `acceptAnswer` schema method on an answer document: `updateMany`
unsets `isAccepted` on every other answer of the same question, then the
target document is saved with `isAccepted = true`. -/
def acceptAnswerMethod (answers : List Answer) (a : Answer) : List Answer :=
  let unaccepted := answers.map (fun x =>
    if x.question == a.question && x.id != a.id then { x with isAccepted := false } else x)
  unaccepted.map (fun x => if x.id == a.id then { a with isAccepted := true } else x)

/-- The single pass over the answers collection that a successful
`acceptAnswer` amounts to (proved equal to `acceptAnswerMethod` below). -/
def acceptMap (a0 : Answer) (x : Answer) : Answer :=
  if x.id == a0.id then { a0 with isAccepted := true }
  else if x.question == a0.question then { x with isAccepted := false }
  else x

/-- The `acceptAnswer` controller (`POST /api/answers/:id/accept`). -/
def acceptAnswerController (s : Store) (answerId : Nat) (userId : UserId) :
    ApiResult × Store :=
  match findAnswer s answerId with
  | none => ({ status := 404, error := some "Answer not found" }, s)
  | some answer =>
    match findQuestion s answer.question with
    | none => ({ status := 404, error := some "Question not found" }, s)
    | some question =>
      if !(question.author == userId) then
        ({ status := 403, error := some "Only the question author can accept answers" }, s)
      else
        let s1 : Store := { s with answers := acceptAnswerMethod s.answers answer }
        ({ status := 200, error := none },
          saveQuestion s1 { question with isAccepted := true })

/-- The `substring(0, 100)` truncation plus conditional ellipsis used for
`metadata.answerPreview` in `createAnswer`. -/
def answerPreview (content : String) : String :=
  String.mk (content.data.take 100) ++ (if content.data.length > 100 then "..." else "")

/-- The `createAnswer` controller (`POST /api/answers`): duplicate-answer
check, answer insertion, last-activity bump, and the notification block
guarded by comparing the question author with the acting user.
`newAnswerId`, `newNotificationId` and `now` stand for store-generated ids
and the ambient clock. -/
def createAnswer (s : Store) (content : String) (questionId : Nat) (userId : UserId)
    (newAnswerId newNotificationId : Nat) (now : Nat) : ApiResult × Store :=
  match findQuestion s questionId with
  | none => ({ status := 404, error := some "Question not found" }, s)
  | some question =>
    if (s.answers.find? (fun a => a.question == questionId && a.author == userId)).isSome then
      ({ status := 400, error := some "You have already answered this question" }, s)
    else
      let answer : Answer :=
        { id := newAnswerId, content := content, question := questionId, author := userId,
          votes := { upvotes := [], downvotes := [] }, isAccepted := false, isEdited := false,
          editHistory := [], comments := [] }
      let s1 : Store := { s with answers := s.answers ++ [answer] }
      let s2 : Store := saveQuestion s1 { question with lastActivity := now }
      let s3 : Store :=
        if !(question.author == userId) then
          { s2 with notifications := s2.notifications ++
            [{ id := newNotificationId, recipient := question.author, sender := userId,
               type := "answer", question := some questionId, answer := none,
               content := "Someone answered your question \"" ++ question.title ++ "\"",
               read := false,
               metadata := { voteType := none, questionTitle := some question.title,
                             answerPreview := some (answerPreview content) } }] }
        else
          s2
      ({ status := 201, error := none }, s3)

/-- The `editAnswer` schema method: push the old content onto
`editHistory`, replace the content, set `isEdited`. -/
def editAnswer (a : Answer) (newContent : String) (editedBy : UserId) (now : Nat) : Answer :=
  { a with
    editHistory := a.editHistory ++ [{ content := a.content, editedAt := now, editedBy := editedBy }],
    content := newContent, isEdited := true }

/-- The `updateAnswer` controller (`PUT /api/answers/:id`). -/
def updateAnswer (s : Store) (answerId : Nat) (userId : UserId) (content : String)
    (now : Nat) : ApiResult × Store :=
  match findAnswer s answerId with
  | none => ({ status := 404, error := some "Answer not found" }, s)
  | some answer =>
    if !(answer.author == userId) then
      ({ status := 403, error := some "Not authorized to update this answer" }, s)
    else
      let s1 := saveAnswer s (editAnswer answer content userId now)
      let s2 :=
        match findQuestion s1 answer.question with
        | some question => saveQuestion s1 { question with lastActivity := now }
        | none => s1
      ({ status := 200, error := none }, s2)

/-- The `deleteAnswer` controller (`DELETE /api/answers/:id`). -/
def deleteAnswer (s : Store) (answerId : Nat) (userId : UserId) (now : Nat) :
    ApiResult × Store :=
  match findAnswer s answerId with
  | none => ({ status := 404, error := some "Answer not found" }, s)
  | some answer =>
    if !(answer.author == userId) then
      ({ status := 403, error := some "Not authorized to delete this answer" }, s)
    else
      let s1 :=
        match findQuestion s answer.question with
        | some question => saveQuestion s { question with lastActivity := now }
        | none => s
      ({ status := 200, error := none },
        { s1 with answers := s1.answers.filter (fun a => a.id != answer.id) })

/-- The `updateQuestion` controller (`PUT /api/questions/:id`): ownership
check, tag processing through `Tag.findOrCreate` (which lower-cases the
name), falsy-coalescing updates of title and description, and a
last-activity bump. -/
def updateQuestion (s : Store) (questionId : Nat) (userId : UserId)
    (title description : Option String) (tags : Option (List String)) (now : Nat) :
    ApiResult × Store :=
  match findQuestion s questionId with
  | none => ({ status := 404, error := some "Question not found" }, s)
  | some question =>
    if !(question.author == userId) then
      ({ status := 403, error := some "Not authorized to update this question" }, s)
    else
      let processedTags :=
        match tags with
        | some ts => ts.map (fun t => t.toLower)
        | none => question.tags
      ({ status := 200, error := none },
        saveQuestion s { question with
          title := jsOr title question.title,
          description := jsOr description question.description,
          tags := processedTags,
          lastActivity := now })

/-- The `markAsRead` static of the Notification schema: `updateMany` with
filter `recipient = recipientId`, narrowed to the ids in
`notificationIds` only when that list is non-empty. -/
def markAsRead (notifs : List NotificationDoc) (recipientId : UserId)
    (notificationIds : List Nat) : List NotificationDoc :=
  notifs.map (fun n =>
    if n.recipient == recipientId &&
        (notificationIds.isEmpty || notificationIds.contains n.id) then
      { n with read := true }
    else
      n)

/-- One call to any of the in-scope mutating controllers. -/
inductive StoreOp where
  | voteQ (questionId : Nat) (userId : UserId) (voteType : String) (now : Nat)
  | unvoteQ (questionId : Nat) (userId : UserId) (voteType : String)
  | voteA (answerId : Nat) (userId : UserId) (voteType : String) (now : Nat)
  | unvoteA (answerId : Nat) (userId : UserId) (voteType : String)
  | accept (answerId : Nat) (userId : UserId)
  | delAnswer (answerId : Nat) (userId : UserId) (now : Nat)
  | editA (answerId : Nat) (userId : UserId) (content : String) (now : Nat)
  | editQ (questionId : Nat) (userId : UserId) (title description : Option String)
      (tags : Option (List String)) (now : Nat)
  | newAnswer (content : String) (questionId : Nat) (userId : UserId)
      (newAnswerId newNotificationId now : Nat)
deriving Repr

def applyStoreOp (s : Store) : StoreOp → Store
  | StoreOp.voteQ qid u t now => (voteQuestion s qid u t now).2
  | StoreOp.unvoteQ qid u t => (removeVoteQuestion s qid u t).2
  | StoreOp.voteA aid u t now => (voteAnswer s aid u t now).2
  | StoreOp.unvoteA aid u t => (removeVoteAnswer s aid u t).2
  | StoreOp.accept aid u => (acceptAnswerController s aid u).2
  | StoreOp.delAnswer aid u now => (deleteAnswer s aid u now).2
  | StoreOp.editA aid u c now => (updateAnswer s aid u c now).2
  | StoreOp.editQ qid u t d tg now => (updateQuestion s qid u t d tg now).2
  | StoreOp.newAnswer c qid u naid nnid now => (createAnswer s c qid u naid nnid now).2

def applyStoreOps (s : Store) (ops : List StoreOp) : Store :=
  ops.foldl applyStoreOp s

/-- The answers of question `qid` currently flagged accepted. -/
def acceptedAnswersOf (s : Store) (qid : Nat) : List Answer :=
  s.answers.filter (fun a => a.question == qid && a.isAccepted)

/-- The stored answer documents carry pairwise distinct ids. -/
def answerIdsNodup (s : Store) : Prop :=
  (s.answers.map Answer.id).Nodup

/-- Per question: at most one accepted answer, and the question flag
agrees with the existence of an accepted answer. -/
def singleAcceptanceInv (s : Store) : Prop :=
  ∀ q ∈ s.questions, (acceptedAnswersOf s q.id).length ≤ 1 ∧
    q.isAccepted = decide (1 ≤ (acceptedAnswersOf s q.id).length)

/-- A sequence of `acceptAnswer` controller calls, each given by target
answer id and acting user. -/
def applyAccepts (s : Store) (calls : List (Nat × UserId)) : Store :=
  calls.foldl (fun st c => (acceptAnswerController st c.1 c.2).2) s

/-- Every stored question document with the given id has its accepted flag
set. -/
def acceptedStays (s : Store) (qid : Nat) : Prop :=
  ∀ q ∈ s.questions, q.id = qid → q.isAccepted = true

/-- A sample question document for concrete checks. -/
def qDoc (qid : Nat) (author : UserId) : Question :=
  { id := qid, title := "How to implement JWT authentication in React?",
    description := "I need help setting up JWT auth in my React app.",
    author := author, tags := ["react", "jwt"],
    votes := { upvotes := [], downvotes := [] }, views := 0, isAccepted := false,
    status := "open", lastActivity := 0 }

/-- A sample answer document for concrete checks. -/
def aDoc (aid qid : Nat) (author : UserId) : Answer :=
  { id := aid, content := "Use httpOnly cookies and refresh tokens.",
    question := qid, author := author,
    votes := { upvotes := [], downvotes := [] }, isAccepted := false,
    isEdited := false, editHistory := [], comments := [] }

/-- A sample unread notification document for concrete checks. -/
def nDoc (nid : Nat) (recipient : UserId) : NotificationDoc :=
  { id := nid, recipient := recipient, sender := 99, type := "answer",
    question := none, answer := none, content := "Someone answered your question",
    read := false,
    metadata := { voteType := none, questionTitle := none, answerPreview := none } }

/-- Scenario store for acceptance checks: user 5 owns question 1, users 6
and 7 answered it (answers 10 and 11). -/
def scenarioStore : Store :=
  { questions := [qDoc 1 5], answers := [aDoc 10 1 6, aDoc 11 1 7], notifications := [] }

/-! Helper lemmas about the vote ledger. -/

/-- Filtering away a user leaves no entry of that user. -/
theorem any_filter_ne_self (l : List VoteEntry) (u : UserId) :
    (l.filter (fun e => e.user != u)).any (fun e => e.user == u) = false := by
  induction l with
  | nil => rfl
  | cons e t ih =>
    simp only [List.filter_cons]
    by_cases h : e.user = u
    · simp [h, ih]
    · simp [h, ih]

/-- Filtering away one user does not change any other user's membership. -/
theorem any_filter_ne_other (l : List VoteEntry) (u w : UserId) (h : w ≠ u) :
    (l.filter (fun e => e.user != u)).any (fun e => e.user == w) =
      l.any (fun e => e.user == w) := by
  induction l with
  | nil => rfl
  | cons e t ih =>
    simp only [List.filter_cons, List.any_cons]
    by_cases he : e.user = u
    · subst he
      have hw : ¬ e.user = w := fun hc => h hc.symm
      simp [hw, ih]
    · simp [he, ih]

/-- Filtering away an absent user is a no-op. -/
theorem filter_ne_eq_self_of_any_false (l : List VoteEntry) (u : UserId)
    (h : l.any (fun e => e.user == u) = false) :
    l.filter (fun e => e.user != u) = l := by
  induction l with
  | nil => rfl
  | cons e t ih =>
    simp only [List.any_cons, Bool.or_eq_false_iff] at h
    simp only [List.filter_cons]
    have : (e.user != u) = true := by simp [bne, h.1]
    rw [this]
    simp [ih h.2]

/-- `hasUserVoted` at the literal `"upvote"` reads the upvote array. -/
theorem hasUserVoted_up (v : Votes) (u : UserId) :
    hasUserVoted v u "upvote" = v.upvotes.any (fun e => e.user == u) := rfl

/-- `hasUserVoted` at the literal `"downvote"` reads the downvote array. -/
theorem hasUserVoted_down (v : Votes) (u : UserId) :
    hasUserVoted v u "downvote" = v.downvotes.any (fun e => e.user == u) := rfl

/-- Unfolded form of `addVote` at the literal `"upvote"`. -/
theorem addVote_up (v : Votes) (u : UserId) (now : Nat) :
    addVote v u "upvote" now =
      if v.upvotes.any (fun e => e.user == u) then
        { upvotes := v.upvotes, downvotes := v.downvotes.filter (fun e => e.user != u) }
      else
        { upvotes := v.upvotes ++ [{ user := u, createdAt := now }],
          downvotes := v.downvotes.filter (fun e => e.user != u) } := by
  by_cases h : v.upvotes.any (fun e => e.user == u) = true
  · simp [addVote, hasUserVoted, h]
  · simp [addVote, hasUserVoted, h]

/-- Unfolded form of `addVote` at the literal `"downvote"`. -/
theorem addVote_down (v : Votes) (u : UserId) (now : Nat) :
    addVote v u "downvote" now =
      if v.downvotes.any (fun e => e.user == u) then
        { upvotes := v.upvotes.filter (fun e => e.user != u), downvotes := v.downvotes }
      else
        { upvotes := v.upvotes.filter (fun e => e.user != u),
          downvotes := v.downvotes ++ [{ user := u, createdAt := now }] } := by
  by_cases h : v.downvotes.any (fun e => e.user == u) = true
  · simp [addVote, hasUserVoted, h]
  · simp [addVote, hasUserVoted, h]

/-- Unfolded form of `removeVote` at the literal `"upvote"`. -/
theorem removeVote_up (v : Votes) (u : UserId) :
    removeVote v u "upvote" =
      { upvotes := v.upvotes.filter (fun e => e.user != u), downvotes := v.downvotes } := rfl

/-- Unfolded form of `removeVote` at the literal `"downvote"`. -/
theorem removeVote_down (v : Votes) (u : UserId) :
    removeVote v u "downvote" =
      { upvotes := v.upvotes, downvotes := v.downvotes.filter (fun e => e.user != u) } := rfl

/-- `addVote` with a string other than the two literals only re-saves. -/
theorem addVote_invalid (v : Votes) (u : UserId) (t : String) (now : Nat)
    (h1 : ¬ t = "upvote") (h2 : ¬ t = "downvote") : addVote v u t now = v := by
  simp [addVote, h1, h2]

/-- `removeVote` with a string other than the two literals only re-saves. -/
theorem removeVote_invalid (v : Votes) (u : UserId) (t : String)
    (h1 : ¬ t = "upvote") (h2 : ¬ t = "downvote") : removeVote v u t = v := by
  simp [removeVote, h1, h2]

/-- `hasUserVoted` with a string other than the two literals is `false`. -/
theorem hasUserVoted_invalid (v : Votes) (u : UserId) (t : String)
    (h1 : ¬ t = "upvote") (h2 : ¬ t = "downvote") : hasUserVoted v u t = false := by
  simp [hasUserVoted, h1, h2]

/-- A vote found after filtering was already there before filtering. -/
theorem any_of_any_filter (l : List VoteEntry) (p q : VoteEntry → Bool)
    (h : (l.filter p).any q = true) : l.any q = true := by
  simp only [List.any_eq_true] at h ⊢
  rcases h with ⟨x, hx, hq⟩
  exact ⟨x, (List.mem_filter.mp hx).1, hq⟩

theorem mutexFor_of_up_false (v : Votes) (u : UserId)
    (h : hasUserVoted v u "upvote" = false) : mutexFor v u := by
  intro hc
  rw [hc.1] at h
  exact Bool.true_eq_false.mp h

theorem mutexFor_of_down_false (v : Votes) (u : UserId)
    (h : hasUserVoted v u "downvote" = false) : mutexFor v u := by
  intro hc
  rw [hc.2] at h
  exact Bool.true_eq_false.mp h

/-- An `addVote` call by any user preserves every user's vote-set mutual
exclusion. -/
theorem mutexFor_addVote (v : Votes) (w u : UserId) (t : String) (now : Nat)
    (h : mutexFor v w) : mutexFor (addVote v u t now) w := by
  by_cases ht1 : t = "upvote"
  · subst ht1
    by_cases hw : w = u
    · subst hw
      apply mutexFor_of_down_false
      by_cases hc : v.upvotes.any (fun e => e.user == w) = true <;>
        simp [addVote_up, hc, hasUserVoted_down, any_filter_ne_self]
    · have hw2 : ¬ u = w := fun hx => hw hx.symm
      have hu : hasUserVoted (addVote v u "upvote" now) w "upvote" =
          hasUserVoted v w "upvote" := by
        by_cases hc : v.upvotes.any (fun e => e.user == u) = true <;>
          simp [addVote_up, hc, hasUserVoted_up, List.any_append, hw2]
      have hd : hasUserVoted (addVote v u "upvote" now) w "downvote" =
          hasUserVoted v w "downvote" := by
        by_cases hc : v.upvotes.any (fun e => e.user == u) = true <;>
          simp [addVote_up, hc, hasUserVoted_down, any_filter_ne_other _ u w hw]
      unfold mutexFor
      rw [hu, hd]
      exact h
  · by_cases ht2 : t = "downvote"
    · subst ht2
      by_cases hw : w = u
      · subst hw
        apply mutexFor_of_up_false
        by_cases hc : v.downvotes.any (fun e => e.user == w) = true <;>
          simp [addVote_down, hc, hasUserVoted_up, any_filter_ne_self]
      · have hw2 : ¬ u = w := fun hx => hw hx.symm
        have hu : hasUserVoted (addVote v u "downvote" now) w "upvote" =
            hasUserVoted v w "upvote" := by
          by_cases hc : v.downvotes.any (fun e => e.user == u) = true <;>
            simp [addVote_down, hc, hasUserVoted_up, any_filter_ne_other _ u w hw]
        have hd : hasUserVoted (addVote v u "downvote" now) w "downvote" =
            hasUserVoted v w "downvote" := by
          by_cases hc : v.downvotes.any (fun e => e.user == u) = true <;>
            simp [addVote_down, hc, hasUserVoted_down, List.any_append, hw2]
        unfold mutexFor
        rw [hu, hd]
        exact h
    · rw [addVote_invalid v u t now ht1 ht2]
      exact h

/-- A `removeVote` call by any user preserves every user's vote-set mutual
exclusion. -/
theorem mutexFor_removeVote (v : Votes) (w u : UserId) (t : String)
    (h : mutexFor v w) : mutexFor (removeVote v u t) w := by
  by_cases ht1 : t = "upvote"
  · subst ht1
    intro hc
    apply h
    have h1 := hc.1
    have h2 := hc.2
    simp only [removeVote_up, hasUserVoted_up, hasUserVoted_down] at h1 h2
    exact ⟨by rw [hasUserVoted_up]; exact any_of_any_filter _ _ _ h1,
           by rw [hasUserVoted_down]; exact h2⟩
  · by_cases ht2 : t = "downvote"
    · subst ht2
      intro hc
      apply h
      have h1 := hc.1
      have h2 := hc.2
      simp only [removeVote_down, hasUserVoted_up, hasUserVoted_down] at h1 h2
      exact ⟨by rw [hasUserVoted_up]; exact h1,
             by rw [hasUserVoted_down]; exact any_of_any_filter _ _ _ h2⟩
    · rw [removeVote_invalid v u t ht1 ht2]
      exact h

/-- Any sequence of vote-ledger calls preserves mutual exclusion. -/
theorem mutexFor_applyVoteOps (v : Votes) (u : UserId) (ops : List VoteOp)
    (h : mutexFor v u) : mutexFor (applyVoteOps v ops) u := by
  induction ops generalizing v with
  | nil => exact h
  | cons op rest ih =>
    cases op with
    | add u2 t now => exact ih (addVote v u2 t now) (mutexFor_addVote v u u2 t now h)
    | remove u2 t => exact ih (removeVote v u2 t) (mutexFor_removeVote v u u2 t h)

/-! Claim theorems C1, C4, C6 (vote-ledger level). -/

/-- C1: for every entity and user, after any sequence of addVote and
removeVote calls starting from a state where the user is in at most one of
the two vote sets, the user appears in at most one of upvotes and
downvotes. -/
theorem c1_vote_mutual_exclusion (v : Votes) (u : UserId) (ops : List VoteOp)
    (h : ¬(hasUserVoted v u "upvote" = true ∧ hasUserVoted v u "downvote" = true)) :
    ¬(hasUserVoted (applyVoteOps v ops) u "upvote" = true ∧
      hasUserVoted (applyVoteOps v ops) u "downvote" = true) :=
  mutexFor_applyVoteOps v u ops h

/-- Witness for C1 at a concrete ledger and call sequence. -/
theorem c1_vote_mutual_exclusion_witness :
    ¬(hasUserVoted (applyVoteOps { upvotes := [], downvotes := [] }
        [VoteOp.add 1 "upvote" 10, VoteOp.add 1 "downvote" 11,
         VoteOp.add 2 "upvote" 12, VoteOp.remove 2 "upvote"]) 1 "upvote" = true ∧
      hasUserVoted (applyVoteOps { upvotes := [], downvotes := [] }
        [VoteOp.add 1 "upvote" 10, VoteOp.add 1 "downvote" 11,
         VoteOp.add 2 "upvote" 12, VoteOp.remove 2 "upvote"]) 1 "downvote" = true) :=
  c1_vote_mutual_exclusion { upvotes := [], downvotes := [] } 1
    [VoteOp.add 1 "upvote" 10, VoteOp.add 1 "downvote" 11,
     VoteOp.add 2 "upvote" 12, VoteOp.remove 2 "upvote"] (by decide)

/-- C6: addVote for a direction the user already holds is a no-op; calling
addVote twice in a row with the same direction equals calling it once, for
both directions. -/
theorem c6_addVote_idempotent (v : Votes) (u : UserId) (n1 n2 : Nat) :
    addVote (addVote v u "upvote" n1) u "upvote" n2 = addVote v u "upvote" n1 ∧
    addVote (addVote v u "downvote" n1) u "downvote" n2 = addVote v u "downvote" n1 := by
  constructor
  · by_cases h : v.upvotes.any (fun e => e.user == u) = true <;>
      simp [addVote_up, h, List.any_append,
        filter_ne_eq_self_of_any_false _ u (any_filter_ne_self v.downvotes u)]
  · by_cases h : v.downvotes.any (fun e => e.user == u) = true <;>
      simp [addVote_down, h, List.any_append,
        filter_ne_eq_self_of_any_false _ u (any_filter_ne_self v.upvotes u)]

/-- C4: an upvote followed by a downvote by the same user leaves the user
present only in the downvote set, and voteCount is derived on read as the
difference of the two set sizes. -/
theorem c4_toggle_and_voteCount (v : Votes) (u : UserId) (n1 n2 : Nat) :
    hasUserVoted (addVote (addVote v u "upvote" n1) u "downvote" n2) u "downvote" = true ∧
    hasUserVoted (addVote (addVote v u "upvote" n1) u "downvote" n2) u "upvote" = false ∧
    (∀ w : Votes, voteCount w = (w.upvotes.length : Int) - (w.downvotes.length : Int)) := by
  have hdown : (addVote v u "upvote" n1).downvotes =
      v.downvotes.filter (fun e => e.user != u) := by
    by_cases h : v.upvotes.any (fun e => e.user == u) = true <;> simp [addVote_up, h]
  have hc : (addVote v u "upvote" n1).downvotes.any (fun e => e.user == u) = false := by
    rw [hdown]
    exact any_filter_ne_self v.downvotes u
  refine ⟨?_, ?_, fun w => rfl⟩
  · simp [addVote_down, hc, hasUserVoted_down, List.any_append]
  · simp [addVote_down, hc, hasUserVoted_up, any_filter_ne_self]

/-! Claim C3: self-vote rejection. -/

/-- C3 counterexample: a self-vote is rejected with HTTP status 400, not
the 403 Forbidden status the claim asserts; the store is untouched. -/
theorem c3_self_vote_status_counterexample :
    (voteQuestion { questions := [qDoc 1 7], answers := [], notifications := [] }
        1 7 "upvote" 0).1.status = 400 ∧
    ¬((voteQuestion { questions := [qDoc 1 7], answers := [], notifications := [] }
        1 7 "upvote" 0).1.status = 403) ∧
    (voteQuestion { questions := [qDoc 1 7], answers := [], notifications := [] }
        1 7 "upvote" 0).2 =
      { questions := [qDoc 1 7], answers := [], notifications := [] } := by
  decide

/-- C3 (amended): a vote request by the entity author is rejected with
status 400 and the self-vote error message, and the store — in particular
both vote sets — is returned unchanged; for questions and for answers. -/
theorem c3_self_vote_rejected_400 (s : Store) (qid aid : Nat) (u : UserId)
    (t : String) (now : Nat) (q : Question) (a : Answer)
    (ht : t = "upvote" ∨ t = "downvote") :
    (findQuestion s qid = some q → q.author = u →
      voteQuestion s qid u t now =
        ({ status := 400, error := some "Cannot vote on your own question" }, s)) ∧
    (findAnswer s aid = some a → a.author = u →
      voteAnswer s aid u t now =
        ({ status := 400, error := some "Cannot vote on your own answer" }, s)) := by
  constructor
  · intro hf hauth
    rcases ht with h | h <;> subst h <;> simp [voteQuestion, hf, hauth]
  · intro hf hauth
    rcases ht with h | h <;> subst h <;> simp [voteAnswer, hf, hauth]

/-- Witness for C3 (amended) at a concrete store: user 7 self-votes their
question, user 8 self-votes their answer. -/
theorem c3_self_vote_rejected_400_witness :
    voteQuestion { questions := [qDoc 1 7], answers := [aDoc 10 1 8], notifications := [] }
        1 7 "upvote" 0 =
      ({ status := 400, error := some "Cannot vote on your own question" },
       { questions := [qDoc 1 7], answers := [aDoc 10 1 8], notifications := [] }) ∧
    voteAnswer { questions := [qDoc 1 7], answers := [aDoc 10 1 8], notifications := [] }
        10 8 "upvote" 0 =
      ({ status := 400, error := some "Cannot vote on your own answer" },
       { questions := [qDoc 1 7], answers := [aDoc 10 1 8], notifications := [] }) :=
  ⟨(c3_self_vote_rejected_400
      { questions := [qDoc 1 7], answers := [aDoc 10 1 8], notifications := [] }
      1 10 7 "upvote" 0 (qDoc 1 7) (aDoc 10 1 8) (Or.inl rfl)).1 (by decide) (by decide),
   (c3_self_vote_rejected_400
      { questions := [qDoc 1 7], answers := [aDoc 10 1 8], notifications := [] }
      1 10 8 "upvote" 0 (qDoc 1 7) (aDoc 10 1 8) (Or.inl rfl)).2 (by decide) (by decide)⟩

/-! Claim C7: acceptAnswer preconditions. -/

/-- C7: acceptAnswer fails with 404 NotFound when the parent question does
not exist, and with 403 Forbidden when the acting user is not the parent
question author; in both cases the store — hence every isAccepted flag —
is returned unchanged. -/
theorem c7_acceptAnswer_preconditions (s : Store) (aid : Nat) (u : UserId)
    (a : Answer) (hf : findAnswer s aid = some a) :
    (findQuestion s a.question = none →
      acceptAnswerController s aid u =
        ({ status := 404, error := some "Question not found" }, s)) ∧
    (∀ q : Question, findQuestion s a.question = some q → ¬(q.author = u) →
      acceptAnswerController s aid u =
        ({ status := 403, error := some "Only the question author can accept answers" }, s)) := by
  constructor
  · intro hq
    simp [acceptAnswerController, hf, hq]
  · intro q hq hauth
    simp [acceptAnswerController, hf, hq, hauth]

/-- Witness for C7: an answer whose parent question is missing, and an
accept attempt by a non-author. -/
theorem c7_acceptAnswer_preconditions_witness :
    acceptAnswerController { questions := [], answers := [aDoc 10 1 8], notifications := [] }
        10 5 =
      ({ status := 404, error := some "Question not found" },
       { questions := [], answers := [aDoc 10 1 8], notifications := [] }) ∧
    acceptAnswerController { questions := [qDoc 1 7], answers := [aDoc 10 1 8], notifications := [] }
        10 8 =
      ({ status := 403, error := some "Only the question author can accept answers" },
       { questions := [qDoc 1 7], answers := [aDoc 10 1 8], notifications := [] }) :=
  ⟨(c7_acceptAnswer_preconditions
      { questions := [], answers := [aDoc 10 1 8], notifications := [] }
      10 5 (aDoc 10 1 8) (by decide)).1 (by decide),
   (c7_acceptAnswer_preconditions
      { questions := [qDoc 1 7], answers := [aDoc 10 1 8], notifications := [] }
      10 8 (aDoc 10 1 8) (by decide)).2 (qDoc 1 7) (by decide) (by decide)⟩

/-! Claim C10: removeVote frame properties and absence of an author check
on the remove-vote endpoints. -/

/-- C10: removeVote removes at most the calling user's entry from the
chosen direction set — every other user's memberships and the opposite set
are unchanged, removal of an absent vote is a no-op — and the remove-vote
controllers apply no self-vote or ownership check: even the entity author
gets a 200 response whose only store change is the removeVote result on
the votes field. -/
theorem c10_removeVote_frame (v : Votes) (u w : UserId) (t : String)
    (s : Store) (qid aid : Nat) (q : Question) (a : Answer) (hw : w ≠ u) :
    (hasUserVoted (removeVote v u t) w "upvote" = hasUserVoted v w "upvote" ∧
     hasUserVoted (removeVote v u t) w "downvote" = hasUserVoted v w "downvote") ∧
    ((removeVote v u "upvote").downvotes = v.downvotes ∧
     hasUserVoted (removeVote v u "upvote") u "upvote" = false ∧
     (removeVote v u "downvote").upvotes = v.upvotes ∧
     hasUserVoted (removeVote v u "downvote") u "downvote" = false) ∧
    (hasUserVoted v u t = false → removeVote v u t = v) ∧
    (findQuestion s qid = some q → (t = "upvote" ∨ t = "downvote") →
      removeVoteQuestion s qid q.author t =
        ({ status := 200, error := none },
         saveQuestion s { q with votes := removeVote q.votes q.author t })) ∧
    (findAnswer s aid = some a → (t = "upvote" ∨ t = "downvote") →
      removeVoteAnswer s aid a.author t =
        ({ status := 200, error := none },
         saveAnswer s { a with votes := removeVote a.votes a.author t })) := by
  refine ⟨?_, ?_, ?_, ?_, ?_⟩
  · by_cases ht1 : t = "upvote"
    · subst ht1
      exact ⟨by simp [removeVote_up, hasUserVoted_up, any_filter_ne_other _ u w hw],
             by simp [removeVote_up, hasUserVoted_down]⟩
    · by_cases ht2 : t = "downvote"
      · subst ht2
        exact ⟨by simp [removeVote_down, hasUserVoted_up],
               by simp [removeVote_down, hasUserVoted_down, any_filter_ne_other _ u w hw]⟩
      · rw [removeVote_invalid v u t ht1 ht2]
        exact ⟨rfl, rfl⟩
  · exact ⟨rfl, by simp [removeVote_up, hasUserVoted_up, any_filter_ne_self],
           rfl, by simp [removeVote_down, hasUserVoted_down, any_filter_ne_self]⟩
  · intro habs
    by_cases ht1 : t = "upvote"
    · subst ht1
      rw [hasUserVoted_up] at habs
      rw [removeVote_up, filter_ne_eq_self_of_any_false _ _ habs]
    · by_cases ht2 : t = "downvote"
      · subst ht2
        rw [hasUserVoted_down] at habs
        rw [removeVote_down, filter_ne_eq_self_of_any_false _ _ habs]
      · exact removeVote_invalid v u t ht1 ht2
  · intro hf ht
    rcases ht with h | h <;> subst h <;> simp [removeVoteQuestion, hf]
  · intro hf ht
    rcases ht with h | h <;> subst h <;> simp [removeVoteAnswer, hf]

/-- Witness for C10: the question author removes their (absent) upvote
from their own question; the answer author likewise. -/
theorem c10_removeVote_frame_witness :
    (hasUserVoted (removeVote { upvotes := [], downvotes := [] } 7 "upvote") 3 "upvote" =
      hasUserVoted { upvotes := [], downvotes := [] } 3 "upvote" ∧
     hasUserVoted (removeVote { upvotes := [], downvotes := [] } 7 "upvote") 3 "downvote" =
      hasUserVoted { upvotes := [], downvotes := [] } 3 "downvote") ∧
    ((removeVote { upvotes := [], downvotes := [] } 7 "upvote").downvotes = [] ∧
     hasUserVoted (removeVote { upvotes := [], downvotes := [] } 7 "upvote") 7 "upvote" = false ∧
     (removeVote { upvotes := [], downvotes := [] } 7 "downvote").upvotes = [] ∧
     hasUserVoted (removeVote { upvotes := [], downvotes := [] } 7 "downvote") 7 "downvote" = false) ∧
    (hasUserVoted { upvotes := [], downvotes := [] } 7 "upvote" = false →
      removeVote { upvotes := [], downvotes := [] } 7 "upvote" =
        { upvotes := [], downvotes := [] }) ∧
    (findQuestion { questions := [qDoc 1 7], answers := [aDoc 10 1 8], notifications := [] } 1 =
        some (qDoc 1 7) → ("upvote" = "upvote" ∨ "upvote" = "downvote") →
      removeVoteQuestion { questions := [qDoc 1 7], answers := [aDoc 10 1 8], notifications := [] }
          1 (qDoc 1 7).author "upvote" =
        ({ status := 200, error := none },
         saveQuestion { questions := [qDoc 1 7], answers := [aDoc 10 1 8], notifications := [] }
           { qDoc 1 7 with votes := removeVote (qDoc 1 7).votes (qDoc 1 7).author "upvote" })) ∧
    (findAnswer { questions := [qDoc 1 7], answers := [aDoc 10 1 8], notifications := [] } 10 =
        some (aDoc 10 1 8) → ("upvote" = "upvote" ∨ "upvote" = "downvote") →
      removeVoteAnswer { questions := [qDoc 1 7], answers := [aDoc 10 1 8], notifications := [] }
          10 (aDoc 10 1 8).author "upvote" =
        ({ status := 200, error := none },
         saveAnswer { questions := [qDoc 1 7], answers := [aDoc 10 1 8], notifications := [] }
           { aDoc 10 1 8 with votes := removeVote (aDoc 10 1 8).votes (aDoc 10 1 8).author "upvote" })) :=
  c10_removeVote_frame { upvotes := [], downvotes := [] } 7 3 "upvote"
    { questions := [qDoc 1 7], answers := [aDoc 10 1 8], notifications := [] }
    1 10 (qDoc 1 7) (aDoc 10 1 8) (by decide)

/-! Claim C8: markRead ownership scoping. -/

/-- C8 counterexample: with an empty ids list, markAsRead flips the
recipient's unread notification to read, so the claim that an empty ids
list changes no read flag is false. -/
theorem c8_markRead_empty_ids_counterexample :
    (markAsRead [nDoc 1 5] 5 []).map NotificationDoc.read = [true] ∧
    (nDoc 1 5).read = false ∧
    ¬ markAsRead [nDoc 1 5] 5 [] = [nDoc 1 5] := by
  decide

/-- C8 (amended): with a non-empty ids list, markAsRead sets read = true
exactly on the notifications owned by the recipient whose id is listed,
leaving every other notification untouched (foreign or unknown ids are
silently ignored); with an empty ids list it instead marks every
notification owned by the recipient as read. -/
theorem c8_markRead_scoping (notifs : List NotificationDoc) (rid : UserId)
    (ids : List Nat) (i : Nat) (hi : i < notifs.length) :
    (¬ ids = [] →
      (markAsRead notifs rid ids)[i]? =
        some (if notifs[i].recipient = rid ∧ notifs[i].id ∈ ids then
                { notifs[i] with read := true }
              else notifs[i])) ∧
    ((markAsRead notifs rid [])[i]? =
      some (if notifs[i].recipient = rid then { notifs[i] with read := true }
            else notifs[i])) := by
  have hget : ∀ f : NotificationDoc → NotificationDoc,
      (notifs.map f)[i]? = some (f (notifs[i])) := by
    intro f
    rw [List.getElem?_map, List.getElem?_eq_getElem hi]
    rfl
  constructor
  · intro hne
    rw [markAsRead, hget]
    congr 1
    by_cases h1 : (notifs[i]).recipient = rid
    · by_cases h2 : (notifs[i]).id ∈ ids
      · simp [h1, h2, hne]
      · simp [h1, h2, hne]
    · simp [h1]
  · rw [markAsRead, hget]
    congr 1
    by_cases h1 : (notifs[i]).recipient = rid
    · simp [h1]
    · simp [h1]

/-- Witness for C8 (amended) at a concrete notification list: recipient 5
owns notifications 1 and 2, user 6 owns notification 3; marking id 1
and the foreign id 3. -/
theorem c8_markRead_scoping_witness :
    (¬ [1, 3] = ([] : List Nat) →
      (markAsRead [nDoc 1 5, nDoc 2 5, nDoc 3 6] 5 [1, 3])[0]? =
        some (if (nDoc 1 5).recipient = 5 ∧ (nDoc 1 5).id ∈ [1, 3] then
                { nDoc 1 5 with read := true }
              else nDoc 1 5)) ∧
    ((markAsRead [nDoc 1 5, nDoc 2 5, nDoc 3 6] 5 [])[0]? =
      some (if (nDoc 1 5).recipient = 5 then { nDoc 1 5 with read := true }
            else nDoc 1 5)) :=
  c8_markRead_scoping [nDoc 1 5, nDoc 2 5, nDoc 3 6] 5 [1, 3] 0 (by decide)

/-! Claim C5: answer-creation notification. -/

/-- C5: creating an answer on another user's question appends exactly one
notification carrying the question author as recipient, the acting user as
sender, type `answer`, a content sentence embedding the question title,
the snapshotted title, and a preview of the answer content truncated to
its first 100 characters with an ellipsis exactly when truncation
happened; answering one's own question emits no notification. -/
theorem c5_answer_notification (s : Store) (content : String) (qid : Nat)
    (u : UserId) (q : Question) (naid nnid now : Nat)
    (hq : findQuestion s qid = some q)
    (hdup : s.answers.find? (fun a => a.question == qid && a.author == u) = none) :
    (¬ u = q.author →
      (createAnswer s content qid u naid nnid now).2.notifications =
        s.notifications ++
          [{ id := nnid, recipient := q.author, sender := u, type := "answer",
             question := some qid, answer := none,
             content := "Someone answered your question \"" ++ q.title ++ "\"",
             read := false,
             metadata := { voteType := none, questionTitle := some q.title,
                           answerPreview := some (answerPreview content) } }]) ∧
    (u = q.author →
      (createAnswer s content qid u naid nnid now).2.notifications =
        s.notifications) ∧
    (String.mk (content.data.take 100)).length ≤ 100 ∧
    (content.data.length ≤ 100 → answerPreview content = content) ∧
    (100 < content.data.length →
      answerPreview content = String.mk (content.data.take 100) ++ "..." ∧
      (String.mk (content.data.take 100)).length = 100) := by
  refine ⟨?_, ?_, ?_, ?_, ?_⟩
  · intro hu
    have hu2 : ¬ q.author = u := fun hx => hu hx.symm
    simp [createAnswer, hq, hdup, hu2, saveQuestion]
  · intro hu
    subst hu
    simp [createAnswer, hq, hdup, saveQuestion]
  · show (content.data.take 100).length ≤ 100
    rw [List.length_take]
    exact min_le_left _ _
  · intro hlen
    have : ¬ content.data.length > 100 := by omega
    rw [answerPreview, List.take_of_length_le hlen, if_neg this]
    simp
  · intro hlen
    have hgt : content.data.length > 100 := hlen
    constructor
    · rw [answerPreview, if_pos hgt]
    · show (content.data.take 100).length = 100
      rw [List.length_take]
      omega

/-- Witness for C5: user 8 answers question 1 owned by user 7. -/
theorem c5_answer_notification_witness :
    (¬ (8 : UserId) = (qDoc 1 7).author →
      (createAnswer { questions := [qDoc 1 7], answers := [], notifications := [] }
          "Short answer content." 1 8 10 20 33).2.notifications =
        [] ++
          [{ id := 20, recipient := (qDoc 1 7).author, sender := 8, type := "answer",
             question := some 1, answer := none,
             content := "Someone answered your question \"" ++ (qDoc 1 7).title ++ "\"",
             read := false,
             metadata := { voteType := none, questionTitle := some (qDoc 1 7).title,
                           answerPreview := some (answerPreview "Short answer content.") } }]) ∧
    ((8 : UserId) = (qDoc 1 7).author →
      (createAnswer { questions := [qDoc 1 7], answers := [], notifications := [] }
          "Short answer content." 1 8 10 20 33).2.notifications = []) ∧
    (String.mk (("Short answer content." : String).data.take 100)).length ≤ 100 ∧
    (("Short answer content." : String).data.length ≤ 100 →
      answerPreview "Short answer content." = "Short answer content.") ∧
    (100 < ("Short answer content." : String).data.length →
      answerPreview "Short answer content." =
        String.mk (("Short answer content." : String).data.take 100) ++ "..." ∧
      (String.mk (("Short answer content." : String).data.take 100)).length = 100) :=
  c5_answer_notification { questions := [qDoc 1 7], answers := [], notifications := [] }
    "Short answer content." 1 8 (qDoc 1 7) 10 20 33 (by decide) (by decide)

/-! Helper lemmas for the acceptance invariant (claim C2). -/

/-- Pointwise-equal functions map lists equally. -/
theorem map_congr_fun {α β : Type} (l : List α) (f g : α → β)
    (h : ∀ x ∈ l, f x = g x) : l.map f = l.map g :=
  List.map_congr_left h

/-- Mapping a function that fixes every list element is the identity. -/
theorem map_id_of_fixed {α : Type} (l : List α) (f : α → α)
    (h : ∀ x ∈ l, f x = x) : l.map f = l := by
  rw [map_congr_fun l f id h]
  exact List.map_id l

/-- The two `map` passes of `acceptAnswerMethod` amount to the single pass
`acceptMap`. -/
theorem acceptAnswerMethod_eq_map (answers : List Answer) (a0 : Answer) :
    acceptAnswerMethod answers a0 = answers.map (acceptMap a0) := by
  unfold acceptAnswerMethod
  rw [List.map_map]
  congr 1
  funext x
  simp only [Function.comp]
  by_cases h1 : x.id = a0.id
  · simp [acceptMap, h1]
  · by_cases h2 : x.question = a0.question
    · simp [acceptMap, h1, h2]
    · simp [acceptMap, h1, h2]

/-- `acceptMap` never changes a document id. -/
theorem acceptMap_id (a0 x : Answer) : (acceptMap a0 x).id = x.id := by
  unfold acceptMap
  by_cases h1 : x.id = a0.id
  · simp [h1]
  · by_cases h2 : x.question = a0.question <;> simp [h1, h2]

/-- `acceptMap` never changes a document's question reference. -/
theorem acceptMap_question (a0 x : Answer) (h1 : ¬ x.id = a0.id) :
    (acceptMap a0 x).question = x.question := by
  unfold acceptMap
  by_cases h2 : x.question = a0.question <;> simp [h1, h2]

/-- With pairwise distinct ids, equal ids pin equal documents. -/
theorem answer_id_inj {l : List Answer} (hnd : (l.map Answer.id).Nodup) :
    ∀ a ∈ l, ∀ b ∈ l, a.id = b.id → a = b := by
  induction l with
  | nil => intro a ha; cases ha
  | cons x t ih =>
    simp only [List.map_cons, List.nodup_cons] at hnd
    intro a ha b hb hid
    rcases List.mem_cons.mp ha with rfl | ha2
    · rcases List.mem_cons.mp hb with rfl | hb2
      · rfl
      · exact absurd (by rw [hid]; exact List.mem_map_of_mem Answer.id hb2) hnd.1
    · rcases List.mem_cons.mp hb with rfl | hb2
      · exact absurd (by rw [← hid]; exact List.mem_map_of_mem Answer.id ha2) hnd.1
      · exact ih hnd.2 a ha2 b hb2 hid

/-- With pairwise distinct ids, filtering a member's id keeps exactly that
member. -/
theorem filter_id_singleton {l : List Answer} (hnd : (l.map Answer.id).Nodup)
    {a0 : Answer} (ha : a0 ∈ l) :
    l.filter (fun x => x.id == a0.id) = [a0] := by
  induction l with
  | nil => cases ha
  | cons x t ih =>
    simp only [List.map_cons, List.nodup_cons] at hnd
    rcases List.mem_cons.mp ha with rfl | ha2
    · have ht : t.filter (fun y => y.id == a0.id) = [] := by
        apply List.filter_eq_nil_iff.mpr
        intro y hy hc
        apply hnd.1
        have hyx : y.id = a0.id := by simpa using hc
        rw [← hyx]
        exact List.mem_map_of_mem Answer.id hy
      simp [List.filter_cons, ht]
    · have hx : ¬ (x.id == a0.id) = true := by
        intro hc
        apply hnd.1
        have hxa : x.id = a0.id := by simpa using hc
        rw [hxa]
        exact List.mem_map_of_mem Answer.id ha2
      simp only [List.filter_cons]
      simp [hx, ih hnd.2 ha2]

/-- On a successful accept, the accepted answers of the target question
collapse to the single saved target document. -/
theorem acceptedAnswers_map_target (l : List Answer) (a0 : Answer)
    (hnd : (l.map Answer.id).Nodup) (ha0 : a0 ∈ l) :
    (l.map (acceptMap a0)).filter
        (fun a => a.question == a0.question && a.isAccepted) =
      [{ a0 with isAccepted := true }] := by
  rw [List.filter_map]
  have h1 : l.filter
      ((fun a => a.question == a0.question && a.isAccepted) ∘ acceptMap a0) =
      l.filter (fun x => x.id == a0.id) := by
    apply List.filter_congr
    intro x hx
    simp only [Function.comp]
    by_cases hx1 : x.id = a0.id
    · have hb : (x.id == a0.id) = true := beq_iff_eq.mpr hx1
      simp [acceptMap, hb]
    · have hb : (x.id == a0.id) = false := beq_eq_false_iff_ne.mpr hx1
      by_cases hx2 : x.question = a0.question
      · have hb2 : (x.question == a0.question) = true := beq_iff_eq.mpr hx2
        simp [acceptMap, hb, hb2]
      · have hb2 : (x.question == a0.question) = false := beq_eq_false_iff_ne.mpr hx2
        simp [acceptMap, hb, hb2]
  rw [h1, filter_id_singleton hnd ha0]
  simp [acceptMap]

/-- On a successful accept, the accepted answers of every other question
are untouched. -/
theorem acceptedAnswers_map_other (l : List Answer) (a0 : Answer) (qid : Nat)
    (hnd : (l.map Answer.id).Nodup) (ha0 : a0 ∈ l) (hne : ¬ qid = a0.question) :
    (l.map (acceptMap a0)).filter (fun a => a.question == qid && a.isAccepted) =
      l.filter (fun a => a.question == qid && a.isAccepted) := by
  rw [List.filter_map]
  have h1 : l.filter
      ((fun a => a.question == qid && a.isAccepted) ∘ acceptMap a0) =
      l.filter (fun a => a.question == qid && a.isAccepted) := by
    apply List.filter_congr
    intro x hx
    simp only [Function.comp]
    by_cases hx1 : x.id = a0.id
    · have hxa : x = a0 := answer_id_inj hnd x hx a0 ha0 hx1
      subst hxa
      have hbq : (x.question == qid) = false :=
        beq_eq_false_iff_ne.mpr (fun hc => hne hc.symm)
      have hb : (x.id == x.id) = true := beq_self_eq_true _
      simp [acceptMap, hb, hbq]
    · have hb : (x.id == a0.id) = false := beq_eq_false_iff_ne.mpr hx1
      by_cases hx2 : x.question = a0.question
      · have hbq : (x.question == qid) = false :=
          beq_eq_false_iff_ne.mpr (fun hc => hne (by rw [← hc, hx2]))
        have hb2 : (x.question == a0.question) = true := beq_iff_eq.mpr hx2
        simp [acceptMap, hb, hb2, hbq]
      · have hb2 : (x.question == a0.question) = false := beq_eq_false_iff_ne.mpr hx2
        simp [acceptMap, hb, hb2]
  rw [h1]
  apply map_id_of_fixed
  intro x hx
  rcases List.mem_filter.mp hx with ⟨hxl, hxp⟩
  have hxq : x.question = qid := by
    have := hxp
    simp only [Bool.and_eq_true, beq_iff_eq] at this
    exact this.1
  have hx1 : (x.id == a0.id) = false := by
    apply beq_eq_false_iff_ne.mpr
    intro hc
    have hxa : x = a0 := answer_id_inj hnd x hxl a0 ha0 hc
    exact hne (by rw [← hxa, hxq])
  have hx2 : (x.question == a0.question) = false :=
    beq_eq_false_iff_ne.mpr (fun hc => hne (by rw [← hxq, hc]))
  simp [acceptMap, hx1, hx2]

/-- The store produced by a successful `acceptAnswer` controller call. -/
theorem acceptAnswerController_success (s : Store) (aid : Nat) (u : UserId)
    (a0 : Answer) (q0 : Question)
    (ha : findAnswer s aid = some a0) (hq : findQuestion s a0.question = some q0)
    (hu : q0.author = u) :
    (acceptAnswerController s aid u).2 =
      { questions := s.questions.map (fun x =>
          if x.id == q0.id then { q0 with isAccepted := true } else x),
        answers := s.answers.map (acceptMap a0),
        notifications := s.notifications } := by
  simp [acceptAnswerController, ha, hq, hu, saveQuestion, acceptAnswerMethod_eq_map]

/-- `acceptedAnswersOf` of a literal store reads the answers component. -/
theorem acceptedAnswersOf_mk (qs : List Question) (ans : List Answer)
    (ns : List NotificationDoc) (qid : Nat) :
    acceptedAnswersOf { questions := qs, answers := ans, notifications := ns } qid =
      ans.filter (fun a => a.question == qid && a.isAccepted) := rfl

/-- One `acceptAnswer` controller call preserves id distinctness and the
single-acceptance invariant. -/
theorem singleAcceptanceInv_acceptController (s : Store) (aid : Nat) (u : UserId)
    (hnd : answerIdsNodup s) (hinv : singleAcceptanceInv s) :
    singleAcceptanceInv (acceptAnswerController s aid u).2 ∧
      answerIdsNodup (acceptAnswerController s aid u).2 := by
  cases ha : findAnswer s aid with
  | none =>
    simp only [acceptAnswerController, ha]
    exact ⟨hinv, hnd⟩
  | some a0 =>
    cases hq : findQuestion s a0.question with
    | none =>
      simp only [acceptAnswerController, ha, hq]
      exact ⟨hinv, hnd⟩
    | some q0 =>
      by_cases hu : q0.author = u
      · rw [acceptAnswerController_success s aid u a0 q0 ha hq hu]
        have ha0mem : a0 ∈ s.answers := List.mem_of_find?_eq_some ha
        have hq0id : q0.id = a0.question := by
          have := List.find?_some hq
          simpa using this
        constructor
        · intro q2 hq2
          rcases List.mem_map.mp hq2 with ⟨x, hx, rfl⟩
          rw [acceptedAnswersOf_mk]
          by_cases hxid : x.id = q0.id
          · have hcond : (x.id == q0.id) = true := beq_iff_eq.mpr hxid
            rw [if_pos hcond]
            have hqid : ({ q0 with isAccepted := true } : Question).id = a0.question := hq0id
            rw [hqid]
            rw [acceptedAnswers_map_target s.answers a0 hnd ha0mem]
            simp
          · have hcond : ¬ (x.id == q0.id) = true := by simp [hxid]
            rw [if_neg hcond]
            have hne : ¬ x.id = a0.question := fun hc => hxid (hc.trans hq0id.symm)
            rw [acceptedAnswers_map_other s.answers a0 x.id hnd ha0mem hne]
            exact hinv x hx
        · show ((s.answers.map (acceptMap a0)).map Answer.id).Nodup
          rw [List.map_map, map_congr_fun s.answers (Answer.id ∘ acceptMap a0) Answer.id
            (fun x _ => acceptMap_id a0 x)]
          exact hnd
      · have hu2 : (q0.author == u) = false := beq_eq_false_iff_ne.mpr hu
        simp only [acceptAnswerController, ha, hq, hu2, Bool.not_false, if_true]
        exact ⟨hinv, hnd⟩

/-- A state with no accepted answers and no accepted questions satisfies
the single-acceptance invariant. -/
theorem singleAcceptanceInv_of_all_false (s : Store)
    (hans : ∀ a ∈ s.answers, a.isAccepted = false)
    (hqs : ∀ q ∈ s.questions, q.isAccepted = false) :
    singleAcceptanceInv s := by
  intro q hq
  have hemp : acceptedAnswersOf s q.id = [] := by
    unfold acceptedAnswersOf
    apply List.filter_eq_nil_iff.mpr
    intro a ha hc
    simp only [Bool.and_eq_true] at hc
    rw [hans a ha] at hc
    exact Bool.true_eq_false.mp hc.2.symm
  rw [hemp]
  simp [hqs q hq]

/-- Any sequence of accept calls preserves the invariant. -/
theorem singleAcceptanceInv_applyAccepts (s : Store) (calls : List (Nat × UserId))
    (hnd : answerIdsNodup s) (hinv : singleAcceptanceInv s) :
    singleAcceptanceInv (applyAccepts s calls) := by
  induction calls generalizing s with
  | nil => exact hinv
  | cons c rest ih =>
    have step := singleAcceptanceInv_acceptController s c.1 c.2 hnd hinv
    exact ih (acceptAnswerController s c.1 c.2).2 step.2 step.1

/-- C2: from a fresh state with distinct answer ids and nothing accepted,
any number of acceptAnswer calls leaves at most one accepted answer per
question with the question flag equal to the existence of an accepted
answer; and in the concrete two-answer scenario, accepting X then Y leaves
X unaccepted, Y accepted and the question flag true throughout. -/
theorem c2_single_acceptance (s : Store) (calls : List (Nat × UserId))
    (hnd : answerIdsNodup s)
    (hans : ∀ a ∈ s.answers, a.isAccepted = false)
    (hqs : ∀ q ∈ s.questions, q.isAccepted = false) :
    singleAcceptanceInv (applyAccepts s calls) ∧
    ((findAnswer (applyAccepts scenarioStore [(10, 5), (11, 5)]) 10).map
        Answer.isAccepted = some false ∧
     (findAnswer (applyAccepts scenarioStore [(10, 5), (11, 5)]) 11).map
        Answer.isAccepted = some true ∧
     (findQuestion (applyAccepts scenarioStore [(10, 5)]) 1).map
        Question.isAccepted = some true ∧
     (findQuestion (applyAccepts scenarioStore [(10, 5), (11, 5)]) 1).map
        Question.isAccepted = some true) :=
  ⟨singleAcceptanceInv_applyAccepts s calls hnd
      (singleAcceptanceInv_of_all_false s hans hqs),
   by decide⟩

/-- Witness for C2 at the concrete scenario store. -/
theorem c2_single_acceptance_witness :
    singleAcceptanceInv (applyAccepts scenarioStore [(10, 5), (11, 5)]) ∧
    ((findAnswer (applyAccepts scenarioStore [(10, 5), (11, 5)]) 10).map
        Answer.isAccepted = some false ∧
     (findAnswer (applyAccepts scenarioStore [(10, 5), (11, 5)]) 11).map
        Answer.isAccepted = some true ∧
     (findQuestion (applyAccepts scenarioStore [(10, 5)]) 1).map
        Question.isAccepted = some true ∧
     (findQuestion (applyAccepts scenarioStore [(10, 5), (11, 5)]) 1).map
        Question.isAccepted = some true) :=
  c2_single_acceptance scenarioStore [(10, 5), (11, 5)]
    (by unfold answerIdsNodup; decide) (by decide) (by decide)

/-! Helper lemmas for acceptance stickiness (claim C9). -/

/-- A Boolean that is not true is false. -/
theorem bool_eq_false {b : Bool} (h : ¬ b = true) : b = false := by
  cases b
  · rfl
  · exact absurd rfl h

/-- Saving a question whose flag is true when it matches the id keeps the
accepted flag. -/
theorem stays_save (s : Store) (qid : Nat) (q2 : Question)
    (h : acceptedStays s qid) (hq2 : q2.id = qid → q2.isAccepted = true) :
    acceptedStays (saveQuestion s q2) qid := by
  intro x hx hid
  rcases List.mem_map.mp hx with ⟨y, hy, rfl⟩
  by_cases hc : (y.id == q2.id) = true
  · rw [if_pos hc] at hid ⊢
    exact hq2 hid
  · rw [if_neg hc] at hid ⊢
    exact h y hy hid

/-- Saving a copy of a stored question with the same id and the same
accepted flag keeps the accepted flag. -/
theorem stays_save_mem (s : Store) (qid : Nat) (q0 q2 : Question)
    (h : acceptedStays s qid) (hmem : q0 ∈ s.questions)
    (hid : q2.id = q0.id) (hacc : q2.isAccepted = q0.isAccepted) :
    acceptedStays (saveQuestion s q2) qid :=
  stays_save s qid q2 h (fun hq2 => hacc.trans (h q0 hmem (hid.symm.trans hq2)))

/-- Every in-scope controller call keeps an accepted question accepted. -/
theorem acceptedStays_applyStoreOp (s : Store) (op : StoreOp) (qid : Nat)
    (h : acceptedStays s qid) : acceptedStays (applyStoreOp s op) qid := by
  cases op with
  | voteQ qid2 u t now =>
    show acceptedStays (voteQuestion s qid2 u t now).2 qid
    by_cases hv : (t == "upvote" || t == "downvote") = true
    · cases hf : findQuestion s qid2 with
      | none => simp only [voteQuestion, hv, Bool.not_true, Bool.false_eq_true,
          if_false, hf]; exact h
      | some q0 =>
        by_cases hauth : (q0.author == u) = true
        · simp only [voteQuestion, hv, Bool.not_true, Bool.false_eq_true,
            if_false, hf, hauth, if_true]
          exact h
        · simp only [voteQuestion, hv, Bool.not_true, Bool.false_eq_true,
            if_false, hf, bool_eq_false hauth]
          exact stays_save_mem s qid q0 _ h (List.mem_of_find?_eq_some hf) rfl rfl
    · have hvf : (t == "upvote" || t == "downvote") = false := bool_eq_false hv
      simp only [voteQuestion, hvf, Bool.not_false, if_true]
      exact h
  | unvoteQ qid2 u t =>
    show acceptedStays (removeVoteQuestion s qid2 u t).2 qid
    by_cases hv : (t == "upvote" || t == "downvote") = true
    · cases hf : findQuestion s qid2 with
      | none => simp only [removeVoteQuestion, hv, Bool.not_true, Bool.false_eq_true,
          if_false, hf]; exact h
      | some q0 =>
        simp only [removeVoteQuestion, hv, Bool.not_true, Bool.false_eq_true,
          if_false, hf]
        exact stays_save_mem s qid q0 _ h (List.mem_of_find?_eq_some hf) rfl rfl
    · have hvf : (t == "upvote" || t == "downvote") = false := bool_eq_false hv
      simp only [removeVoteQuestion, hvf, Bool.not_false, if_true]
      exact h
  | voteA aid u t now =>
    show acceptedStays (voteAnswer s aid u t now).2 qid
    by_cases hv : (t == "upvote" || t == "downvote") = true
    · cases hf : findAnswer s aid with
      | none => simp only [voteAnswer, hv, Bool.not_true, Bool.false_eq_true,
          if_false, hf]; exact h
      | some a0 =>
        by_cases hauth : (a0.author == u) = true
        · simp only [voteAnswer, hv, Bool.not_true, Bool.false_eq_true,
            if_false, hf, hauth, if_true]
          exact h
        · simp only [voteAnswer, hv, Bool.not_true, Bool.false_eq_true,
            if_false, hf, bool_eq_false hauth]
          exact h
    · have hvf : (t == "upvote" || t == "downvote") = false := bool_eq_false hv
      simp only [voteAnswer, hvf, Bool.not_false, if_true]
      exact h
  | unvoteA aid u t =>
    show acceptedStays (removeVoteAnswer s aid u t).2 qid
    by_cases hv : (t == "upvote" || t == "downvote") = true
    · cases hf : findAnswer s aid with
      | none => simp only [removeVoteAnswer, hv, Bool.not_true, Bool.false_eq_true,
          if_false, hf]; exact h
      | some a0 =>
        simp only [removeVoteAnswer, hv, Bool.not_true, Bool.false_eq_true,
          if_false, hf]
        exact h
    · have hvf : (t == "upvote" || t == "downvote") = false := bool_eq_false hv
      simp only [removeVoteAnswer, hvf, Bool.not_false, if_true]
      exact h
  | accept aid u =>
    show acceptedStays (acceptAnswerController s aid u).2 qid
    cases ha : findAnswer s aid with
    | none => simp only [acceptAnswerController, ha]; exact h
    | some a0 =>
      cases hq : findQuestion s a0.question with
      | none => simp only [acceptAnswerController, ha, hq]; exact h
      | some q0 =>
        by_cases hauth : (q0.author == u) = true
        · simp only [acceptAnswerController, ha, hq, hauth, Bool.not_true,
            Bool.false_eq_true, if_false]
          exact stays_save { s with answers := acceptAnswerMethod s.answers a0 }
            qid { q0 with isAccepted := true } h (fun _ => rfl)
        · simp only [acceptAnswerController, ha, hq, bool_eq_false hauth,
            Bool.not_false, if_true]
          exact h
  | delAnswer aid u now =>
    show acceptedStays (deleteAnswer s aid u now).2 qid
    cases ha : findAnswer s aid with
    | none => simp only [deleteAnswer, ha]; exact h
    | some a0 =>
      by_cases hauth : (a0.author == u) = true
      · cases hq : findQuestion s a0.question with
        | none =>
          simp only [deleteAnswer, ha, hauth, Bool.not_true, Bool.false_eq_true,
            if_false, hq]
          exact h
        | some q0 =>
          simp only [deleteAnswer, ha, hauth, Bool.not_true, Bool.false_eq_true,
            if_false, hq]
          exact stays_save_mem s qid q0 _ h (List.mem_of_find?_eq_some hq) rfl rfl
      · simp only [deleteAnswer, ha, bool_eq_false hauth, Bool.not_false, if_true]
        exact h
  | editA aid u c now =>
    show acceptedStays (updateAnswer s aid u c now).2 qid
    cases ha : findAnswer s aid with
    | none => simp only [updateAnswer, ha]; exact h
    | some a0 =>
      by_cases hauth : (a0.author == u) = true
      · cases hq : findQuestion (saveAnswer s (editAnswer a0 c u now)) a0.question with
        | none =>
          simp only [updateAnswer, ha, hauth, Bool.not_true, Bool.false_eq_true,
            if_false, hq]
          exact h
        | some q0 =>
          simp only [updateAnswer, ha, hauth, Bool.not_true, Bool.false_eq_true,
            if_false, hq]
          exact stays_save_mem (saveAnswer s (editAnswer a0 c u now)) qid q0 _ h
            (List.mem_of_find?_eq_some hq) rfl rfl
      · simp only [updateAnswer, ha, bool_eq_false hauth, Bool.not_false, if_true]
        exact h
  | editQ qid2 u t d tg now =>
    show acceptedStays (updateQuestion s qid2 u t d tg now).2 qid
    cases hf : findQuestion s qid2 with
    | none => simp only [updateQuestion, hf]; exact h
    | some q0 =>
      by_cases hauth : (q0.author == u) = true
      · simp only [updateQuestion, hf, hauth, Bool.not_true, Bool.false_eq_true, if_false]
        exact stays_save_mem s qid q0 _ h (List.mem_of_find?_eq_some hf) rfl rfl
      · simp only [updateQuestion, hf, bool_eq_false hauth, Bool.not_false, if_true]
        exact h
  | newAnswer c qid2 u naid nnid now =>
    show acceptedStays (createAnswer s c qid2 u naid nnid now).2 qid
    cases hf : findQuestion s qid2 with
    | none => simp only [createAnswer, hf]; exact h
    | some q0 =>
      by_cases hdup : (s.answers.find? (fun a => a.question == qid2 && a.author == u)).isSome = true
      · simp only [createAnswer, hf, hdup, if_true]
        exact h
      · have hdupf : (s.answers.find? (fun a => a.question == qid2 && a.author == u)).isSome = false :=
          bool_eq_false hdup
        have hstay : acceptedStays (saveQuestion
            { s with answers := s.answers ++
                [{ id := naid, content := c, question := qid2, author := u,
                   votes := { upvotes := [], downvotes := [] }, isAccepted := false,
                   isEdited := false, editHistory := [], comments := [] }] }
            { q0 with lastActivity := now }) qid :=
          stays_save_mem _ qid q0 _ h (List.mem_of_find?_eq_some hf) rfl rfl
        by_cases hna : (q0.author == u) = true
        · simp only [createAnswer, hf, hdupf, Bool.false_eq_true, if_false, hna,
            Bool.not_true]
          exact hstay
        · simp only [createAnswer, hf, hdupf, Bool.false_eq_true, if_false,
            bool_eq_false hna, Bool.not_false, if_true]
          intro x hx hid
          exact hstay x hx hid

/-- Any sequence of in-scope controller calls keeps an accepted question
accepted. -/
theorem acceptedStays_applyStoreOps (s : Store) (ops : List StoreOp) (qid : Nat)
    (h : acceptedStays s qid) : acceptedStays (applyStoreOps s ops) qid := by
  induction ops generalizing s with
  | nil => exact h
  | cons op rest ih => exact ih (applyStoreOp s op) (acceptedStays_applyStoreOp s op qid h)

/-- C9: once a question's isAccepted flag is true, no sequence of in-scope
controller calls — accepting any answer, deleting answers (including the
accepted one), voting, removing votes, editing answers or the question,
adding answers — ever resets it to false. -/
theorem c9_acceptance_sticky (s : Store) (qid : Nat) (ops : List StoreOp)
    (h : ∀ q ∈ s.questions, q.id = qid → q.isAccepted = true) :
    ∀ q ∈ (applyStoreOps s ops).questions, q.id = qid → q.isAccepted = true :=
  acceptedStays_applyStoreOps s ops qid h

/-- Witness for C9: question 1 is accepted with accepted answer 10; the
author accepts again, a user votes, the answer author edits and then
deletes the accepted answer, and the question author edits the question. -/
theorem c9_acceptance_sticky_witness :
    ((applyStoreOps
        { questions := [{ qDoc 1 5 with isAccepted := true }],
          answers := [{ aDoc 10 1 6 with isAccepted := true }], notifications := [] }
        [StoreOp.accept 10 5, StoreOp.voteQ 1 6 "upvote" 40,
         StoreOp.voteA 10 5 "downvote" 41, StoreOp.editA 10 6 "A better answer text." 42,
         StoreOp.delAnswer 10 6 43, StoreOp.editQ 1 5 none none none 44,
         StoreOp.unvoteQ 1 6 "upvote"]).questions.all
      (fun q => !(q.id == 1) || q.isAccepted)) = true := by
  have h := c9_acceptance_sticky
    { questions := [{ qDoc 1 5 with isAccepted := true }],
      answers := [{ aDoc 10 1 6 with isAccepted := true }], notifications := [] }
    1
    [StoreOp.accept 10 5, StoreOp.voteQ 1 6 "upvote" 40,
     StoreOp.voteA 10 5 "downvote" 41, StoreOp.editA 10 6 "A better answer text." 42,
     StoreOp.delAnswer 10 6 43, StoreOp.editQ 1 5 none none none 44,
     StoreOp.unvoteQ 1 6 "upvote"]
    (by decide)
  apply List.all_eq_true.mpr
  intro q hq
  by_cases hid : q.id = 1
  · simp [hid, h q hq hid]
  · simp [hid]

end StackIt
